import Mathlib

/-! inspectrum: the window controller (`mainwindow.cpp`)

A shallow embedding of `MainWindow` (event filter, sample-rate slots, FFT-size
and zoom slots, centre-sample arithmetic) and the properties of its selection
gesture, wheel routing and scroll-position arithmetic.

Conventions of the embedding.

* C++ `int` and `off_t` are `Int`; results are stated for runs without integer
  overflow. Integer division is C++ truncating division, `Int.tdiv`.
* A `float` or `double` value is `Option ℚ`: `some q` is the finite value `q`,
  `none` is a value that is not finite (a NaN or an infinity). Every
  floating-point operation rounds its exact result with the rounding operator
  of its format; the operators are parameters (`FloatModel`), constrained only
  to be monotone and exact on `0`, `1/2`, `-1/2` and `1`, which IEEE 754
  round-to-nearest in binary32 and binary64 is. `FloatModel.exact` is the
  instance without rounding.
* The Qt value classes the controller uses (`QPoint`, `QRect`,
  `QAbstractSlider`) follow the Qt 5 library the code is written against.
* The spectrogram engine is a collaborator whose source is a separate file:
  its state is the record of what its queries return, and its setters are
  parameters (`SpectrogramOps`).
* The dock `SpectrogramControls` is a collaborator whose source is a separate
  file: what it emits as `fftSizeChanged` when its FFT-size slider changes is a
  parameter (`SpectrogramControlsOps`).
* Qt delivers a signal to a connected slot of the same thread before the
  emitting call returns. In the wheel branch of the event filter,
  `slider->setValue` therefore runs the slot the constructor connects:
  `setZoomLevel` for the zoom-level slider, and `setFFTSize` for the
  `fftSizeChanged` the dock emits for the FFT-size slider. `changeSampleRate`
  is embedded by its own two statements; the `textChanged` signal of its
  `setText` hands the text of the same number to `setSampleRate` once more.
-/

namespace Inspectrum

/-! ## Floating point -/

/-- Rounding operator of a binary floating-point format: monotone, and exact on
the four values the frequency mapping needs. -/
structure Rounding where
  rnd : ℚ → ℚ
  mono : ∀ a b : ℚ, a ≤ b → rnd a ≤ rnd b
  exact_zero : rnd 0 = 0
  exact_one : rnd 1 = 1
  exact_half : rnd (1 / 2) = 1 / 2
  exact_neg_half : rnd (-(1 / 2)) = -(1 / 2)

/-- The rounding operators of `float` (`f32`) and `double` (`f64`). -/
structure FloatModel where
  f32 : Rounding
  f64 : Rounding

/-- Rounding that changes nothing. -/
def Rounding.exact : Rounding where
  rnd := fun q => q
  mono := fun _ _ h => h
  exact_zero := rfl
  exact_one := rfl
  exact_half := rfl
  exact_neg_half := rfl

/-- Floating-point arithmetic without rounding error. -/
def FloatModel.exact : FloatModel where
  f32 := Rounding.exact
  f64 := Rounding.exact

/-! ## Qt value classes -/

/-- The class `QPoint`: integer pixel coordinates. -/
structure QPoint where
  x : Int
  y : Int
deriving DecidableEq, Repr

/-- The class `QRect`, stored as Qt stores it: the coordinates of the top-left
pixel `(x1, y1)` and of the bottom-right pixel `(x2, y2)`. -/
structure QRect where
  x1 : Int
  y1 : Int
  x2 : Int
  y2 : Int
deriving DecidableEq, Repr

namespace QRect

/-- The constructor `QRect(const QPoint &topLeft, const QPoint &bottomRight)`. -/
def ofPoints (topLeft bottomRight : QPoint) : QRect :=
  { x1 := topLeft.x, y1 := topLeft.y, x2 := bottomRight.x, y2 := bottomRight.y }

def left (r : QRect) : Int := r.x1

def top (r : QRect) : Int := r.y1

def right (r : QRect) : Int := r.x2

def bottom (r : QRect) : Int := r.y2

/-- The extent `QRect::width()`, which is `x2 - x1 + 1`. -/
def width (r : QRect) : Int := r.x2 - r.x1 + 1

/-- The extent `QRect::height()`, which is `y2 - y1 + 1`. -/
def height (r : QRect) : Int := r.y2 - r.y1 + 1

/-- The function `QRect::normalized()` of Qt 5: the corners of an axis are
swapped when the extent along that axis is negative (`x2 < x1 - 1`,
`y2 < y1 - 1`). -/
def normalized (r : QRect) : QRect :=
  { x1 := if r.x2 < r.x1 - 1 then r.x2 else r.x1
    x2 := if r.x2 < r.x1 - 1 then r.x1 else r.x2
    y1 := if r.y2 < r.y1 - 1 then r.y2 else r.y1
    y2 := if r.y2 < r.y1 - 1 then r.y1 else r.y2 }

end QRect

/-- The class `QAbstractSlider` (sliders and scroll bars): a value kept within
`[minimum, maximum]`. -/
structure QAbstractSlider where
  minimum : Int
  maximum : Int
  value : Int
deriving DecidableEq, Repr

/-- The setter `QAbstractSlider::setValue`: the request is bounded to the range,
`qBound(minimum, v, maximum) = qMax(minimum, qMin(maximum, v))`. -/
def QAbstractSlider.setValue (s : QAbstractSlider) (v : Int) : QAbstractSlider :=
  { s with value := max s.minimum (min s.maximum v) }

/-- The rubber band widget: its geometry and whether it is shown. -/
structure QRubberBand where
  geometry : QRect
  visible : Bool
deriving DecidableEq, Repr

/-! ## `util.h` -/

/-- Modelled from the spec: `clamp` is declared in `util.h`, which is a separate
file. The spec uses it as `clamp(offset + x, 0, W)`, the value bounded to the
closed range between the second and third argument. -/
def clamp (value lo hi : Int) : Int := min hi (max lo value)

/-! ## The spectrogram engine, as the controller sees it -/

/-- What the engine's queries return: `getStride()`, `width()`, and the values
its setters were given. -/
structure Spectrogram where
  stride : Int
  width : Int
  sampleRate : Int
  fftSize : Int
  zoomLevel : Int
deriving DecidableEq, Repr

/-- The engine's setters `setSampleRate`, `setFFTSize` and `setZoomLevel`. Their
bodies are in the engine's source, so they are parameters here. -/
structure SpectrogramOps where
  setSampleRate : Int → Spectrogram → Spectrogram
  setFFTSize : Int → Spectrogram → Spectrogram
  setZoomLevel : Int → Spectrogram → Spectrogram

/-- The dock `SpectrogramControls`, whose source is a separate file: the
argument of the `fftSizeChanged(int)` signal it emits when its FFT-size slider
takes a new value, `none` when it emits none. -/
structure SpectrogramControlsOps where
  fftSizeChanged : Int → Option Int

/-- Modelled from the spec: `getStride()` is the engine's, "exposes current
samples-per-line for the controller's own sample↔scroll-position math". -/
def Spectrogram.getStride (sp : Spectrogram) : Int := sp.stride

/-- Modelled from the spec: `lineToSample` is the engine's,
"`lineToSample(line) = line * stride`". -/
def Spectrogram.lineToSample (sp : Spectrogram) (line : Int) : Int :=
  line * sp.getStride

/-- Modelled from the spec: `sampleToLine` is the engine's,
"`sampleToLine(sample) = sample / stride` (floor)"; `/` on `Int` is the floor
quotient for a positive divisor. -/
def Spectrogram.sampleToLine (sp : Spectrogram) (sample : Int) : Int :=
  sample / sp.getStride

/-! ## The frequency mapping of the release branch -/

/-- The finite case of `(float)c / width - 0.5` assigned to a `float`, for a
column `c` already clamped: `c` and `width` are converted to `float` and
divided as `float`; `0.5` is a `double`, so the subtraction is done in `double`
and its result converted back to `float`. -/
def freqValue (F : FloatModel) (c width : Int) : ℚ :=
  F.f32.rnd (F.f64.rnd (F.f32.rnd (F.f32.rnd (c : ℚ) / F.f32.rnd (width : ℚ)) - 1 / 2))

/-- The expression `(float)clamp(offset + x, 0, width) / width - 0.5` of
`MainWindow::eventFilter`. The code divides without a test of the divisor; a
zero divisor gives a value that is not finite. -/
def normalizedFreq (F : FloatModel) (offset x width : Int) : Option ℚ :=
  if F.f32.rnd (width : ℚ) = 0 then none
  else some (freqValue F (clamp (offset + x) 0 width) width)

/-! ## The window -/

/-- The signals `MainWindow` emits. A time range is a pair of sample offsets, a
frequency range a pair of `float` values. -/
inductive Signal where
  | selectionChanged (timeRange : Int × Int) (freqRange : Option ℚ × Option ℚ)
  | selectionCleared
deriving DecidableEq

/-- The state the controller reads and writes: the engine, the scroll area
(its height and its two scroll bars), the dock's two sliders and sample-rate
text field, whether the status bar shows a message (the text of the message is
not part of the state), the stored selection, and the two file-scope globals
`rubberBand` (`none` is `NULL`) and `mystart`. -/
structure MainWindow where
  spectrogram : Spectrogram
  scrollAreaHeight : Int
  verticalScrollBar : QAbstractSlider
  horizontalScrollBar : QAbstractSlider
  zoomLevelSlider : QAbstractSlider
  fftSizeSlider : QAbstractSlider
  sampleRateText : String
  statusMessage : Bool
  selectionTime : Int × Int
  selectionFreq : Option ℚ × Option ℚ
  rubberBand : Option QRubberBand
  mystart : QPoint

/-- The value of `QApplication::keyboardModifiers()`, reduced to the two flags
the event filter tests. -/
structure KeyboardModifiers where
  control : Bool
  shift : Bool
deriving DecidableEq, Repr

/-- The flag set `Qt::MouseButtons`; `Qt::LeftButton` is `0x00000001`. -/
abbrev MouseButtons := Nat

/-- The constant `Qt::LeftButton`. -/
def LeftButton : MouseButtons := 1

/-- The events the filter distinguishes, with the fields it reads: the vertical
angle delta of a wheel event, the buttons and position of a mouse event. -/
inductive QEvent where
  | Wheel (angleDeltaY : Int)
  | MouseButtonPress (buttons : MouseButtons) (pos : QPoint)
  | MouseMove (buttons : MouseButtons) (pos : QPoint)
  | MouseButtonRelease (buttons : MouseButtons) (pos : QPoint)
  | Other

/-- What one call of the event filter did: the window afterwards, the returned
`bool` (`true`: the event is consumed) and the signals emitted, in order. -/
structure Filtered where
  window : MainWindow
  consumed : Bool
  emitted : List Signal

/-! ## Centre sample and scroll position -/

/-- The function `MainWindow::getCenterSample()`. -/
def getCenterSample (w : MainWindow) : Int :=
  let height := w.scrollAreaHeight
  (w.verticalScrollBar.value + height.tdiv 2) * w.spectrogram.getStride

/-- The function `MainWindow::getScrollPos(off_t sample)`. -/
def getScrollPos (w : MainWindow) (sample : Int) : Int :=
  let height := w.scrollAreaHeight
  sample.tdiv w.spectrogram.getStride - height.tdiv 2

/-- The slot `MainWindow::setFFTSize(int size)`. -/
def setFFTSize (ops : SpectrogramOps) (size : Int) (w : MainWindow) : MainWindow :=
  let sample := getCenterSample w
  let w1 := { w with spectrogram := ops.setFFTSize size w.spectrogram }
  { w1 with verticalScrollBar := w1.verticalScrollBar.setValue (getScrollPos w1 sample) }

/-- The slot `MainWindow::setZoomLevel(int zoom)`. -/
def setZoomLevel (ops : SpectrogramOps) (zoom : Int) (w : MainWindow) : MainWindow :=
  let sample := getCenterSample w
  let w1 := { w with spectrogram := ops.setZoomLevel zoom w.spectrogram }
  { w1 with verticalScrollBar := w1.verticalScrollBar.setValue (getScrollPos w1 sample) }

/-- The call `dock->zoomLevelSlider->setValue(v)`. The slider bounds the
request to its range; when that changes its value it emits `valueChanged`, which
the constructor connects to `MainWindow::setZoomLevel`, so the slot runs with
the new value before the call returns. A request that leaves the value as it
is emits nothing. -/
def zoomLevelSliderSetValue (ops : SpectrogramOps) (w : MainWindow) (v : Int) : MainWindow :=
  let slider := w.zoomLevelSlider.setValue v
  if slider.value = w.zoomLevelSlider.value then w
  else setZoomLevel ops slider.value { w with zoomLevelSlider := slider }

/-- The call `dock->fftSizeSlider->setValue(v)`. The slider bounds the request
to its range; when that changes its value the dock may emit `fftSizeChanged`,
which the constructor connects to `MainWindow::setFFTSize`, so the slot runs
before the call returns. A request that leaves the value as it is emits
nothing. -/
def fftSizeSliderSetValue (ops : SpectrogramOps) (dock : SpectrogramControlsOps)
    (w : MainWindow) (v : Int) : MainWindow :=
  let slider := w.fftSizeSlider.setValue v
  if slider.value = w.fftSizeSlider.value then w
  else
    match dock.fftSizeChanged slider.value with
    | none => { w with fftSizeSlider := slider }
    | some size => setFFTSize ops size { w with fftSizeSlider := slider }

/-- The function `MainWindow::eventFilter`. The result is `none` when the
code dereferences `rubberBand` while it is `NULL` (a move or release before
the first left-button press). -/
def eventFilter (F : FloatModel) (ops : SpectrogramOps) (dock : SpectrogramControlsOps)
    (mods : KeyboardModifiers) (w : MainWindow) : QEvent → Option Filtered
  | QEvent.Wheel angleDeltaY =>
    if mods.control then
      some { window :=
               if angleDeltaY > 0 then
                 zoomLevelSliderSetValue ops w (w.zoomLevelSlider.value + 1)
               else if angleDeltaY < 0 then
                 zoomLevelSliderSetValue ops w (w.zoomLevelSlider.value - 1)
               else w,
             consumed := true, emitted := [] }
    else if mods.shift then
      some { window :=
               if angleDeltaY > 0 then
                 fftSizeSliderSetValue ops dock w (w.fftSizeSlider.value + 1)
               else if angleDeltaY < 0 then
                 fftSizeSliderSetValue ops dock w (w.fftSizeSlider.value - 1)
               else w,
             consumed := true, emitted := [] }
    else some { window := w, consumed := false, emitted := [] }
  | QEvent.MouseButtonPress buttons pos =>
    if buttons = LeftButton then
      some { window := { w with
                           mystart := pos,
                           rubberBand := some { geometry := QRect.ofPoints pos pos,
                                                visible := true } },
             consumed := true, emitted := [] }
    else some { window := w, consumed := false, emitted := [] }
  | QEvent.MouseMove buttons pos =>
    if buttons = LeftButton then
      match w.rubberBand with
      | none => none
      | some band =>
        some { window := { w with
                             rubberBand := some { band with
                               geometry := (QRect.ofPoints w.mystart pos).normalized } },
               consumed := true, emitted := [] }
    else some { window := w, consumed := false, emitted := [] }
  | QEvent.MouseButtonRelease _ _ =>
    match w.rubberBand with
    | none => none
    | some band =>
      let rb := band.geometry
      let topSample := w.spectrogram.lineToSample (w.verticalScrollBar.value + rb.top)
      let bottomSample := w.spectrogram.lineToSample (w.verticalScrollBar.value + rb.bottom)
      let offset := w.horizontalScrollBar.value
      let width := w.spectrogram.width
      let left := normalizedFreq F offset rb.left width
      let right := normalizedFreq F offset rb.right width
      if rb.width > 10 ∧ rb.height > 10 then
        some { window := { w with
                             selectionTime := (topSample, bottomSample),
                             selectionFreq := (left, right),
                             statusMessage := true },
               consumed := true,
               emitted := [Signal.selectionChanged (topSample, bottomSample) (left, right)] }
      else
        some { window := { w with
                             rubberBand := some { band with visible := false },
                             statusMessage := false },
               consumed := true,
               emitted := [Signal.selectionCleared] }
  | QEvent.Other => some { window := w, consumed := false, emitted := [] }

/-- The pointer moving through the points of `path` with the left button
held: one `MouseMove` event per point, each passed through the event filter. -/
def moveAlong (F : FloatModel) (ops : SpectrogramOps) (dock : SpectrogramControlsOps)
    (mods : KeyboardModifiers) : MainWindow → List QPoint → Option MainWindow
  | w, [] => some w
  | w, p :: ps =>
    (eventFilter F ops dock mods w (QEvent.MouseMove LeftButton p)).bind fun moved =>
      moveAlong F ops dock mods moved.window ps

/-- A left-button drag from `press` to `release`: the press, the moves through
the points of `path` and then to the release point, and the release, each
passed through the event filter. The result is that of the release. -/
def drag (F : FloatModel) (ops : SpectrogramOps) (dock : SpectrogramControlsOps)
    (mods : KeyboardModifiers) (w : MainWindow)
    (press : QPoint) (path : List QPoint) (release : QPoint) : Option Filtered :=
  (eventFilter F ops dock mods w (QEvent.MouseButtonPress LeftButton press)).bind fun pressed =>
  (moveAlong F ops dock mods pressed.window (path ++ [release])).bind fun moved =>
  eventFilter F ops dock mods moved (QEvent.MouseButtonRelease 0 release)

/-! ## Sample rate -/

/-- The value of a run of decimal digits, most significant first; `none` when a
character is not a digit. -/
def digitsValue : List Char → Nat → Option Nat
  | [], acc => some acc
  | c :: cs, acc =>
    if c.isDigit then digitsValue cs (acc * 10 + (c.toNat - 48)) else none

/-- The characters of a text without its leading and trailing white space. -/
def trimmed (cs : List Char) : List Char :=
  ((cs.dropWhile Char.isWhitespace).reverse.dropWhile Char.isWhitespace).reverse

/-- The conversion `QString::toInt()` (base 10): surrounding white space is
skipped, a sign may precede the digits, and the result is `0` when the text is
not a number or the number does not fit a 32-bit `int`. -/
def QString.toInt (s : String) : Int :=
  let parsed : Option Int :=
    match trimmed s.data with
    | [] => none
    | '-' :: ds => if ds.isEmpty then none else (digitsValue ds 0).map fun n => -(n : Int)
    | '+' :: ds => if ds.isEmpty then none else (digitsValue ds 0).map fun n => (n : Int)
    | ds => (digitsValue ds 0).map fun n => (n : Int)
  match parsed with
  | some n => if -2147483648 ≤ n ∧ n ≤ 2147483647 then n else 0
  | none => 0

/-- The conversion `QString::number(int)`: the decimal rendering. -/
def QString.number (n : Int) : String := toString n

/-- The slot `MainWindow::setSampleRate(QString rate)`. -/
def setSampleRate (ops : SpectrogramOps) (rate : String) (w : MainWindow) : MainWindow :=
  { w with spectrogram := ops.setSampleRate (QString.toInt rate) w.spectrogram }

/-- The function `MainWindow::changeSampleRate(int rate)`. -/
def changeSampleRate (ops : SpectrogramOps) (rate : Int) (w : MainWindow) : MainWindow :=
  { w with
      spectrogram := ops.setSampleRate rate w.spectrogram,
      sampleRateText := QString.number rate }

/-! ## The centre of the view -/

/-- The view is centred on the same sample to within one line: the centre
sample of `after` is at most that of `before`, less than one stride (of
`after`) below it, and equal to it when the stride of `after` divides it. -/
def CentreKept (before after : MainWindow) : Prop :=
  getCenterSample after ≤ getCenterSample before ∧
  getCenterSample before < getCenterSample after + after.spectrogram.getStride ∧
  (after.spectrogram.getStride ∣ getCenterSample before →
    getCenterSample after = getCenterSample before)

/-! ## Concrete data for exercising the results -/

/-- An engine for concrete runs: each setter stores its argument, and the
stride is the FFT size divided by two to the power of the zoom level. The
results below hold for every engine; this one only instantiates them. -/
def exampleEngine : SpectrogramOps where
  setSampleRate := fun rate sp => { sp with sampleRate := rate }
  setFFTSize := fun size sp =>
    { sp with fftSize := size, stride := size.tdiv (2 ^ sp.zoomLevel.toNat) }
  setZoomLevel := fun zoom sp =>
    { sp with zoomLevel := zoom, stride := sp.fftSize.tdiv (2 ^ zoom.toNat) }

/-- A dock for concrete runs: it emits as FFT size two to the power of the
slider value. The results below hold for every dock. -/
def exampleDock : SpectrogramControlsOps where
  fftSizeChanged := fun v => some (2 ^ v.toNat)

/-- A window for concrete runs: stride and display width 1024, a viewport of
height 600 scrolled to the top, sample-rate text "8000000", no rubber band. -/
def exampleWindow : MainWindow where
  spectrogram := { stride := 1024, width := 1024, sampleRate := 8000000,
                   fftSize := 1024, zoomLevel := 0 }
  scrollAreaHeight := 600
  verticalScrollBar := { minimum := 0, maximum := 10000, value := 0 }
  horizontalScrollBar := { minimum := 0, maximum := 0, value := 0 }
  zoomLevelSlider := { minimum := 0, maximum := 10, value := 0 }
  fftSizeSlider := { minimum := 1, maximum := 13, value := 10 }
  sampleRateText := "8000000"
  statusMessage := false
  selectionTime := (0, 0)
  selectionFreq := (some 0, some 0)
  rubberBand := none
  mystart := { x := 0, y := 0 }

/-- The window `exampleWindow` with the rubber band stretched over the pixels
`(x1, y1)` to `(x2, y2)`, and the display width set to `width`. -/
def bandedWindow (x1 y1 x2 y2 width : Int) : MainWindow :=
  { exampleWindow with
      spectrogram := { exampleWindow.spectrogram with width := width },
      rubberBand := some { geometry := { x1 := x1, y1 := y1, x2 := x2, y2 := y2 },
                           visible := true } }

/-! ## Lemmas: clamping and the frequency mapping -/

theorem clamp_nonneg (v W : Int) (hW : 0 ≤ W) : 0 ≤ clamp v 0 W := by
  unfold clamp; omega

theorem clamp_le (v W : Int) : clamp v 0 W ≤ W := by
  unfold clamp; omega

theorem clamp_mono (u v W : Int) (h : u ≤ v) : clamp u 0 W ≤ clamp v 0 W := by
  unfold clamp; omega

theorem clamp_zero_width (v : Int) : clamp v 0 0 = 0 := by
  unfold clamp; omega

theorem Rounding.one_le_of_pos (R : Rounding) {W : Int} (hW : 0 < W) :
    1 ≤ R.rnd (W : ℚ) := by
  have h1 : (1 : ℚ) ≤ (W : ℚ) := by exact_mod_cast hW
  have h2 := R.mono 1 (W : ℚ) h1
  rwa [R.exact_one] at h2

theorem Rounding.nonneg_of_nonneg (R : Rounding) {q : ℚ} (hq : 0 ≤ q) : 0 ≤ R.rnd q := by
  have h := R.mono 0 q hq
  rwa [R.exact_zero] at h

theorem Rounding.le_one_of_le_one (R : Rounding) {q : ℚ} (hq : q ≤ 1) : R.rnd q ≤ 1 := by
  have h := R.mono q 1 hq
  rwa [R.exact_one] at h

theorem Rounding.band (R : Rounding) {q : ℚ} (hlo : -(1 / 2) ≤ q) (hhi : q ≤ 1 / 2) :
    -(1 / 2) ≤ R.rnd q ∧ R.rnd q ≤ 1 / 2 := by
  have h1 := R.mono _ _ hlo
  have h2 := R.mono _ _ hhi
  rw [R.exact_neg_half] at h1
  rw [R.exact_half] at h2
  exact ⟨h1, h2⟩

theorem normalizedFreq_of_pos (F : FloatModel) (offset x W : Int) (hW : 0 < W) :
    normalizedFreq F offset x W = some (freqValue F (clamp (offset + x) 0 W) W) := by
  have hb := F.f32.one_le_of_pos hW
  have hne : F.f32.rnd (W : ℚ) ≠ 0 := by linarith
  simp [normalizedFreq, freqValue, hne]

theorem normalizedFreq_zero_width (F : FloatModel) (offset x : Int) :
    normalizedFreq F offset x 0 = none := by
  simp [normalizedFreq, F.f32.exact_zero]

theorem freqValue_band (F : FloatModel) (c W : Int) (hc : 0 ≤ c) (hcW : c ≤ W) (hW : 0 < W) :
    -(1 / 2) ≤ freqValue F c W ∧ freqValue F c W ≤ 1 / 2 := by
  have hb := F.f32.one_le_of_pos hW
  have hbpos : (0 : ℚ) < F.f32.rnd (W : ℚ) := by linarith
  have ha0 : 0 ≤ F.f32.rnd (c : ℚ) := F.f32.nonneg_of_nonneg (by exact_mod_cast hc)
  have hab : F.f32.rnd (c : ℚ) ≤ F.f32.rnd (W : ℚ) := F.f32.mono _ _ (by exact_mod_cast hcW)
  have hq0 : 0 ≤ F.f32.rnd (c : ℚ) / F.f32.rnd (W : ℚ) := div_nonneg ha0 hbpos.le
  have hq1 : F.f32.rnd (c : ℚ) / F.f32.rnd (W : ℚ) ≤ 1 := (div_le_one hbpos).mpr hab
  have hr0 := F.f32.nonneg_of_nonneg hq0
  have hr1 := F.f32.le_one_of_le_one hq1
  have hd := F.f64.band (q := F.f32.rnd (F.f32.rnd (c : ℚ) / F.f32.rnd (W : ℚ)) - 1 / 2)
    (by linarith) (by linarith)
  exact F.f32.band hd.1 hd.2

theorem freqValue_mono (F : FloatModel) (c d W : Int) (hcd : c ≤ d) (hW : 0 < W) :
    freqValue F c W ≤ freqValue F d W := by
  have hb := F.f32.one_le_of_pos hW
  have hbpos : (0 : ℚ) < F.f32.rnd (W : ℚ) := by linarith
  have hab : F.f32.rnd (c : ℚ) ≤ F.f32.rnd (d : ℚ) := F.f32.mono _ _ (by exact_mod_cast hcd)
  have hq : F.f32.rnd (c : ℚ) / F.f32.rnd (W : ℚ) ≤ F.f32.rnd (d : ℚ) / F.f32.rnd (W : ℚ) :=
    div_le_div_of_nonneg_right hab hbpos.le
  have hr := F.f32.mono _ _ hq
  unfold freqValue
  exact F.f32.mono _ _ (F.f64.mono _ _ (by linarith))

/-- At the right edge of the display, `offset + x = W`, every floating-point
model computes exactly `1/2`. -/
theorem normalizedFreq_right_edge (F : FloatModel) (W : Int) (hW : 0 < W) :
    normalizedFreq F 0 W W = some (1 / 2) := by
  have hb := F.f32.one_le_of_pos hW
  have hne : F.f32.rnd (W : ℚ) ≠ 0 := by linarith
  have hc : clamp (0 + W) 0 W = W := by unfold clamp; omega
  have h1 : F.f32.rnd (1 : ℚ) - 1 / 2 = 1 / 2 := by rw [F.f32.exact_one]; norm_num
  simp only [normalizedFreq, freqValue, hc, hne, if_false, div_self hne, h1,
    F.f64.exact_half, F.f32.exact_half]

/-! ## Lemmas: the release branch and the drag -/

theorem eventFilter_release (F : FloatModel) (ops : SpectrogramOps) (dock : SpectrogramControlsOps)
    (mods : KeyboardModifiers) (w : MainWindow)
    (band : QRubberBand) (buttons : MouseButtons) (pos : QPoint)
    (hband : w.rubberBand = some band) :
    eventFilter F ops dock mods w (QEvent.MouseButtonRelease buttons pos) =
      if band.geometry.width > 10 ∧ band.geometry.height > 10 then
        some { window := { w with
                 selectionTime :=
                   (w.spectrogram.lineToSample (w.verticalScrollBar.value + band.geometry.top),
                    w.spectrogram.lineToSample (w.verticalScrollBar.value + band.geometry.bottom)),
                 selectionFreq :=
                   (normalizedFreq F w.horizontalScrollBar.value band.geometry.left
                      w.spectrogram.width,
                    normalizedFreq F w.horizontalScrollBar.value band.geometry.right
                      w.spectrogram.width),
                 statusMessage := true },
               consumed := true,
               emitted := [Signal.selectionChanged
                 (w.spectrogram.lineToSample (w.verticalScrollBar.value + band.geometry.top),
                  w.spectrogram.lineToSample (w.verticalScrollBar.value + band.geometry.bottom))
                 (normalizedFreq F w.horizontalScrollBar.value band.geometry.left
                    w.spectrogram.width,
                  normalizedFreq F w.horizontalScrollBar.value band.geometry.right
                    w.spectrogram.width)] }
      else
        some { window := { w with
                 rubberBand := some { band with visible := false },
                 statusMessage := false },
               consumed := true,
               emitted := [Signal.selectionCleared] } := by
  simp only [eventFilter, hband]

/-- What a release emits when it emits `selectionChanged`: the rubber band
exists, it is over the threshold in both directions, and the two ranges are
the ones computed from it. -/
theorem release_emits_changed (F : FloatModel) (ops : SpectrogramOps) (dock : SpectrogramControlsOps)
    (mods : KeyboardModifiers) (w : MainWindow)
    (buttons : MouseButtons) (pos : QPoint) (r : Filtered)
    (t : Int × Int) (f : Option ℚ × Option ℚ)
    (hr : eventFilter F ops dock mods w (QEvent.MouseButtonRelease buttons pos) = some r)
    (hem : Signal.selectionChanged t f ∈ r.emitted) :
    ∃ band, w.rubberBand = some band ∧
      band.geometry.width > 10 ∧ band.geometry.height > 10 ∧
      t = (w.spectrogram.lineToSample (w.verticalScrollBar.value + band.geometry.top),
           w.spectrogram.lineToSample (w.verticalScrollBar.value + band.geometry.bottom)) ∧
      f = (normalizedFreq F w.horizontalScrollBar.value band.geometry.left w.spectrogram.width,
           normalizedFreq F w.horizontalScrollBar.value band.geometry.right
             w.spectrogram.width) := by
  cases hb : w.rubberBand with
  | none => simp [eventFilter, hb] at hr
  | some band =>
    rw [eventFilter_release F ops dock mods w band buttons pos hb] at hr
    by_cases hbig : band.geometry.width > 10 ∧ band.geometry.height > 10
    · rw [if_pos hbig] at hr
      have hr2 := Option.some.inj hr
      subst hr2
      simp only [List.mem_singleton, Signal.selectionChanged.injEq] at hem
      exact ⟨band, rfl, hbig.1, hbig.2, hem.1, hem.2⟩
    · rw [if_neg hbig] at hr
      have hr2 := Option.some.inj hr
      subst hr2
      simp at hem

/-- After any moves that end at `last`, the rubber band spans `mystart` to
`last`. -/
theorem moveAlong_band (F : FloatModel) (ops : SpectrogramOps) (dock : SpectrogramControlsOps)
    (mods : KeyboardModifiers) (path : List QPoint) :
    ∀ (w : MainWindow) (band : QRubberBand) (last : QPoint), w.rubberBand = some band →
      moveAlong F ops dock mods w (path ++ [last]) =
        some { w with rubberBand := some { band with
                 geometry := (QRect.ofPoints w.mystart last).normalized } } := by
  induction path with
  | nil =>
    intro w band last hb
    simp [moveAlong, eventFilter, LeftButton, hb]
  | cons p ps ih =>
    intro w band last hb
    have step := ih
      { w with rubberBand := some { band with
          geometry := (QRect.ofPoints w.mystart p).normalized } }
      { band with geometry := (QRect.ofPoints w.mystart p).normalized } last rfl
    simp only [List.cons_append, moveAlong, eventFilter, LeftButton, if_true, hb,
      Option.some_bind]
    exact step

theorem drag_eq_release (F : FloatModel) (ops : SpectrogramOps) (dock : SpectrogramControlsOps)
    (mods : KeyboardModifiers) (w : MainWindow)
    (press : QPoint) (path : List QPoint) (release : QPoint) :
    drag F ops dock mods w press path release =
      eventFilter F ops dock mods
        { w with
            mystart := press,
            rubberBand := some { geometry := (QRect.ofPoints press release).normalized,
                                 visible := true } }
        (QEvent.MouseButtonRelease 0 release) := by
  simp only [drag, eventFilter, LeftButton, if_true, Option.some_bind]
  rw [moveAlong_band F ops dock mods path _ { geometry := QRect.ofPoints press press, visible := true }
    release rfl]
  rfl

theorem normalized_width_small (p q : QPoint) (h : |q.x - p.x| ≤ 9) :
    (QRect.ofPoints p q).normalized.width ≤ 10 := by
  simp only [QRect.normalized, QRect.ofPoints, QRect.width]
  have := abs_le.mp h
  split_ifs <;> omega

theorem normalized_height_small (p q : QPoint) (h : |q.y - p.y| ≤ 9) :
    (QRect.ofPoints p q).normalized.height ≤ 10 := by
  simp only [QRect.normalized, QRect.ofPoints, QRect.height]
  have := abs_le.mp h
  split_ifs <;> omega

theorem normalized_of_far (p q : QPoint) (hx : 10 ≤ |q.x - p.x|) (hy : 10 ≤ |q.y - p.y|) :
    (QRect.ofPoints p q).normalized =
      { x1 := min p.x q.x, y1 := min p.y q.y, x2 := max p.x q.x, y2 := max p.y q.y } := by
  simp only [QRect.normalized, QRect.ofPoints]
  have hx2 := le_abs'.mp hx
  have hy2 := le_abs'.mp hy
  congr 1 <;> split_ifs <;> omega

/-! ## Lemmas: sliders and the centre sample -/

theorem setValue_of_mem_range (s : QAbstractSlider) (v : Int)
    (hlo : s.minimum ≤ v) (hhi : v ≤ s.maximum) : (s.setValue v).value = v := by
  simp only [QAbstractSlider.setValue]; omega

theorem recentre (c s h : Int) (hc : 0 ≤ c) (hs : 1 ≤ s) :
    (c.tdiv s - h.tdiv 2 + h.tdiv 2) * s ≤ c ∧
    c < (c.tdiv s - h.tdiv 2 + h.tdiv 2) * s + s ∧
    (s ∣ c → (c.tdiv s - h.tdiv 2 + h.tdiv 2) * s = c) := by
  have hs0 : s ≠ 0 := by omega
  have he : c.tdiv s - h.tdiv 2 + h.tdiv 2 = c / s := by
    rw [Int.tdiv_eq_ediv hc (by omega)]; omega
  rw [he]
  refine ⟨Int.ediv_mul_le c hs0, ?_, fun hd => Int.ediv_mul_cancel hd⟩
  have := Int.lt_ediv_add_one_mul_self c (show 0 < s by omega)
  linarith

/-- The common body of `setFFTSize` and `setZoomLevel`, with `sp` the engine
after its setter ran. -/
theorem centre_kept_of_stride (w : MainWindow) (sp : Spectrogram)
    (hh : 0 ≤ w.scrollAreaHeight) (hv : 0 ≤ w.verticalScrollBar.value)
    (hs1 : 1 ≤ w.spectrogram.getStride) (hs2 : 1 ≤ sp.getStride)
    (hlo : w.verticalScrollBar.minimum ≤
      getScrollPos { w with spectrogram := sp } (getCenterSample w))
    (hhi : getScrollPos { w with spectrogram := sp } (getCenterSample w) ≤
      w.verticalScrollBar.maximum) :
    (w.verticalScrollBar.setValue
        (getScrollPos { w with spectrogram := sp } (getCenterSample w))).value =
      (getCenterSample w).tdiv sp.getStride - w.scrollAreaHeight.tdiv 2 ∧
    CentreKept w { w with
      spectrogram := sp,
      verticalScrollBar := w.verticalScrollBar.setValue
        (getScrollPos { w with spectrogram := sp } (getCenterSample w)) } := by
  have hc : 0 ≤ getCenterSample w := by
    simp only [getCenterSample]
    have : 0 ≤ w.scrollAreaHeight.tdiv 2 := by
      rw [Int.tdiv_eq_ediv hh (by omega)]; omega
    exact mul_nonneg (by omega) (by omega)
  have hval := setValue_of_mem_range w.verticalScrollBar _ hlo hhi
  have key := recentre (getCenterSample w) sp.getStride w.scrollAreaHeight hc hs2
  refine ⟨by rw [hval]; rfl, ?_⟩
  unfold CentreKept
  have hc' : getCenterSample { w with
      spectrogram := sp,
      verticalScrollBar := w.verticalScrollBar.setValue
        (getScrollPos { w with spectrogram := sp } (getCenterSample w)) } =
      ((getCenterSample w).tdiv sp.getStride - w.scrollAreaHeight.tdiv 2 +
        w.scrollAreaHeight.tdiv 2) * sp.getStride := by
    show ((w.verticalScrollBar.setValue _).value + _) * _ = _
    rw [hval]
    rfl
  rw [hc']
  exact key

/-! ## The selection gesture -/

/-- C1, as the code has it: a left-button drag whose press and release points
differ by at most 9 pixels horizontally, or by at most 9 pixels vertically,
gives a rubber band with `width() ≤ 10` or `height() ≤ 10`; the release emits
`selectionCleared` and nothing else, does not emit `selectionChanged`, returns
`true`, and leaves the stored selection as it was. -/
theorem drag_below_threshold_clears (F : FloatModel) (ops : SpectrogramOps) (dock : SpectrogramControlsOps)
    (mods : KeyboardModifiers)
    (w : MainWindow) (press : QPoint) (path : List QPoint) (release : QPoint)
    (h : |release.x - press.x| ≤ 9 ∨ |release.y - press.y| ≤ 9) :
    ∃ r, drag F ops dock mods w press path release = some r ∧
      r.emitted = [Signal.selectionCleared] ∧
      (∀ t f, Signal.selectionChanged t f ∉ r.emitted) ∧
      r.consumed = true ∧
      r.window.selectionTime = w.selectionTime ∧
      r.window.selectionFreq = w.selectionFreq := by
  have hsmall : ¬ ((QRect.ofPoints press release).normalized.width > 10 ∧
      (QRect.ofPoints press release).normalized.height > 10) := by
    rcases h with h | h
    · have := normalized_width_small press release h; omega
    · have := normalized_height_small press release h; omega
  rw [drag_eq_release, eventFilter_release F ops dock mods _ _ 0 release rfl, if_neg hsmall]
  exact ⟨_, rfl, rfl, by simp, rfl, rfl, rfl⟩

/-- Witness for C1: a drag from (0, 0) through (40, 40) to (5, 200) on the
example window is cleared. -/
theorem drag_below_threshold_clears_witness :
    (|(5 : Int) - 0| ≤ 9 ∨ |(200 : Int) - 0| ≤ 9) ∧
    ∃ r, drag FloatModel.exact exampleEngine exampleDock { control := false, shift := false } exampleWindow
        { x := 0, y := 0 } [{ x := 40, y := 40 }] { x := 5, y := 200 } = some r ∧
      r.emitted = [Signal.selectionCleared] ∧
      (∀ t f, Signal.selectionChanged t f ∉ r.emitted) ∧
      r.consumed = true ∧
      r.window.selectionTime = exampleWindow.selectionTime ∧
      r.window.selectionFreq = exampleWindow.selectionFreq :=
  ⟨by decide, drag_below_threshold_clears FloatModel.exact exampleEngine exampleDock { control := false, shift := false }
      exampleWindow { x := 0, y := 0 } [{ x := 40, y := 40 }] { x := 5, y := 200 } (by decide)⟩

/-- Counterexample to C1, a drag of exactly 10 pixels both ways: from (0, 0)
to (10, 10) the rubber band is 11 by 11 pixels, `11 > 10`, and the release
emits `selectionChanged` (samples 0 to 10240, frequencies -1/2 to
10/1024 - 1/2), not `selectionCleared`. -/
theorem drag_ten_by_ten_selects :
    (drag FloatModel.exact exampleEngine exampleDock { control := false, shift := false } exampleWindow
        { x := 0, y := 0 } [] { x := 10, y := 10 }).map Filtered.emitted =
      some [Signal.selectionChanged (0, 10240) (some (-(1 / 2)), some (-(251 / 512)))] := by
  simp [drag, moveAlong, eventFilter, exampleWindow, LeftButton, QRect.ofPoints,
    QRect.normalized, QRect.width, QRect.height, QRect.top, QRect.bottom, QRect.left, QRect.right,
    Spectrogram.lineToSample, Spectrogram.getStride, normalizedFreq, freqValue, clamp,
    FloatModel.exact, Rounding.exact]
  norm_num

/-- C2, as the code has it: a left-button drag whose press and release points
differ by at least 10 pixels horizontally and by at least 10 pixels vertically
(a rubber band with `width() > 10` and `height() > 10`) makes the release emit
`selectionChanged` with the time range `lineToSample(scroll + top)`,
`lineToSample(scroll + bottom)` and the frequency range mapped from the left
and right column, store both in `selectionTime` and `selectionFreq`, not emit
`selectionCleared`, and return `true`. -/
theorem drag_over_threshold_selects (F : FloatModel) (ops : SpectrogramOps) (dock : SpectrogramControlsOps)
    (mods : KeyboardModifiers)
    (w : MainWindow) (press : QPoint) (path : List QPoint) (release : QPoint)
    (hx : 10 ≤ |release.x - press.x|) (hy : 10 ≤ |release.y - press.y|) :
    ∃ r, drag F ops dock mods w press path release = some r ∧
      r.emitted =
        [Signal.selectionChanged
          (w.spectrogram.lineToSample (w.verticalScrollBar.value + min press.y release.y),
           w.spectrogram.lineToSample (w.verticalScrollBar.value + max press.y release.y))
          (normalizedFreq F w.horizontalScrollBar.value (min press.x release.x)
             w.spectrogram.width,
           normalizedFreq F w.horizontalScrollBar.value (max press.x release.x)
             w.spectrogram.width)] ∧
      r.window.selectionTime =
        (w.spectrogram.lineToSample (w.verticalScrollBar.value + min press.y release.y),
         w.spectrogram.lineToSample (w.verticalScrollBar.value + max press.y release.y)) ∧
      r.window.selectionFreq =
        (normalizedFreq F w.horizontalScrollBar.value (min press.x release.x)
           w.spectrogram.width,
         normalizedFreq F w.horizontalScrollBar.value (max press.x release.x)
           w.spectrogram.width) ∧
      Signal.selectionCleared ∉ r.emitted ∧
      r.consumed = true := by
  have hn := normalized_of_far press release hx hy
  have hx2 := le_abs'.mp hx
  have hy2 := le_abs'.mp hy
  have hbig : (QRect.ofPoints press release).normalized.width > 10 ∧
      (QRect.ofPoints press release).normalized.height > 10 := by
    rw [hn]; simp only [QRect.width, QRect.height]; constructor <;> omega
  rw [drag_eq_release, eventFilter_release F ops dock mods _ _ 0 release rfl, if_pos hbig]
  refine ⟨_, rfl, ?_, ?_, ?_, ?_, rfl⟩
  · simp only [hn, QRect.top, QRect.bottom, QRect.left, QRect.right]
  · simp only [hn, QRect.top, QRect.bottom]
  · simp only [hn, QRect.left, QRect.right]
  · simp

/-- Witness for C2: a drag from (50, 50) through (45, 30) up and left to
(39, 20) on the example window selects samples 20480 to 51200 and columns 39
to 50. -/
theorem drag_over_threshold_selects_witness :
    (10 ≤ |(39 : Int) - 50| ∧ 10 ≤ |(20 : Int) - 50|) ∧
    ∃ r, drag FloatModel.exact exampleEngine exampleDock { control := false, shift := false } exampleWindow
        { x := 50, y := 50 } [{ x := 45, y := 30 }] { x := 39, y := 20 } = some r ∧
      r.window.selectionTime = (20480, 51200) ∧
      r.window.selectionFreq =
        (normalizedFreq FloatModel.exact 0 39 1024, normalizedFreq FloatModel.exact 0 50 1024) ∧
      Signal.selectionCleared ∉ r.emitted := by
  obtain ⟨r, hr, _, ht, hf, hc, _⟩ :=
    drag_over_threshold_selects FloatModel.exact exampleEngine exampleDock { control := false, shift := false }
      exampleWindow { x := 50, y := 50 } [{ x := 45, y := 30 }] { x := 39, y := 20 }
      (by decide) (by decide)
  exact ⟨⟨by decide, by decide⟩, r, hr, ht, hf, hc⟩

/-- Counterexample to C2, a drag that is long in one direction only: from
(0, 0) to (100, 0), where |Δx| = 100 > 10, the rubber band is 101 pixels wide
and 1 pixel high, and the release emits `selectionCleared`. -/
theorem wide_flat_drag_clears :
    (drag FloatModel.exact exampleEngine exampleDock { control := false, shift := false } exampleWindow
        { x := 0, y := 0 } [] { x := 100, y := 0 }).map Filtered.emitted =
      some [Signal.selectionCleared] := by
  simp [drag, moveAlong, eventFilter, exampleWindow, LeftButton, QRect.ofPoints, QRect.normalized,
    QRect.width, QRect.height]

/-! ## The frequency range -/

/-- C3, as the code has it: for a display width `W > 0`, every scroll offset
and every pixel column, the mapped frequency is finite and lies in the closed
interval from -1/2 to 1/2; and both values of the frequency range of every
`selectionChanged` a release emits lie in that closed interval. -/
theorem normalizedFreq_closed_band (F : FloatModel) (ops : SpectrogramOps) (dock : SpectrogramControlsOps)
    (mods : KeyboardModifiers)
    (w : MainWindow) (hW : 0 < w.spectrogram.width) :
    (∀ offset x : Int, ∃ v, normalizedFreq F offset x w.spectrogram.width = some v ∧
        -(1 / 2) ≤ v ∧ v ≤ 1 / 2) ∧
    (∀ buttons pos r t f,
        eventFilter F ops dock mods w (QEvent.MouseButtonRelease buttons pos) = some r →
        Signal.selectionChanged t f ∈ r.emitted →
        ∃ l rt, f = (some l, some rt) ∧
          -(1 / 2) ≤ l ∧ l ≤ 1 / 2 ∧ -(1 / 2) ≤ rt ∧ rt ≤ 1 / 2) := by
  have key : ∀ offset x : Int, ∃ v, normalizedFreq F offset x w.spectrogram.width = some v ∧
      -(1 / 2) ≤ v ∧ v ≤ 1 / 2 := by
    intro offset x
    refine ⟨_, normalizedFreq_of_pos F offset x _ hW, ?_⟩
    exact freqValue_band F _ _ (clamp_nonneg _ _ hW.le) (clamp_le _ _) hW
  refine ⟨key, ?_⟩
  intro buttons pos r t f hr hem
  obtain ⟨band, _, _, _, _, hf⟩ := release_emits_changed F ops dock mods w buttons pos r t f hr hem
  obtain ⟨l, hl, hl1, hl2⟩ := key w.horizontalScrollBar.value band.geometry.left
  obtain ⟨rt, hrt, hr1, hr2⟩ := key w.horizontalScrollBar.value band.geometry.right
  exact ⟨l, rt, by rw [hf, hl, hrt], hl1, hl2, hr1, hr2⟩

/-- Witness for C3: the example window with display width 1024 and a rubber
band over columns 0 to 1024. -/
theorem normalizedFreq_closed_band_witness :
    (0 : Int) < (bandedWindow 0 0 1024 20 1024).spectrogram.width ∧
    ((∀ offset x : Int, ∃ v,
        normalizedFreq FloatModel.exact offset x
          (bandedWindow 0 0 1024 20 1024).spectrogram.width = some v ∧
        -(1 / 2) ≤ v ∧ v ≤ 1 / 2) ∧
    (∀ buttons pos r t f,
        eventFilter FloatModel.exact exampleEngine exampleDock { control := false, shift := false }
          (bandedWindow 0 0 1024 20 1024) (QEvent.MouseButtonRelease buttons pos) = some r →
        Signal.selectionChanged t f ∈ r.emitted →
        ∃ l rt, f = (some l, some rt) ∧
          -(1 / 2) ≤ l ∧ l ≤ 1 / 2 ∧ -(1 / 2) ≤ rt ∧ rt ≤ 1 / 2)) :=
  ⟨by decide, normalizedFreq_closed_band FloatModel.exact exampleEngine exampleDock { control := false, shift := false }
      (bandedWindow 0 0 1024 20 1024) (by decide)⟩

/-- Counterexample to C3, the right edge: with display width 4, offset 0 and
column 4 the clamp gives 4, `4 / 4 - 0.5` is exactly 1/2, which is outside the
half-open interval; and a release with a rubber band over columns 0 to 20 of a
display of width 20 emits `selectionChanged` with the frequency range -1/2 to
1/2. -/
theorem right_edge_is_half :
    normalizedFreq FloatModel.exact 0 4 4 = some (1 / 2) ∧
    (eventFilter FloatModel.exact exampleEngine exampleDock { control := false, shift := false }
        (bandedWindow 0 0 20 20 20)
        (QEvent.MouseButtonRelease 0 { x := 20, y := 20 })).map Filtered.emitted =
      some [Signal.selectionChanged (0, 20480) (some (-(1 / 2)), some (1 / 2))] := by
  constructor
  · simp [normalizedFreq, freqValue, clamp, FloatModel.exact, Rounding.exact]
    norm_num
  · simp [eventFilter, bandedWindow, exampleWindow, QRect.width, QRect.height, QRect.top,
      QRect.bottom, QRect.left, QRect.right, Spectrogram.lineToSample, Spectrogram.getStride,
      normalizedFreq, freqValue, clamp, FloatModel.exact, Rounding.exact]
    norm_num

/-- C10: whenever a release emits `selectionChanged` while the display width is
positive, both values of the emitted frequency range are finite and the left
one is at most the right one. -/
theorem release_freq_ordered (F : FloatModel) (ops : SpectrogramOps) (dock : SpectrogramControlsOps)
    (mods : KeyboardModifiers) (w : MainWindow)
    (buttons : MouseButtons) (pos : QPoint) (r : Filtered)
    (t : Int × Int) (f : Option ℚ × Option ℚ)
    (hW : 0 < w.spectrogram.width)
    (hr : eventFilter F ops dock mods w (QEvent.MouseButtonRelease buttons pos) = some r)
    (hem : Signal.selectionChanged t f ∈ r.emitted) :
    ∃ left right, f = (some left, some right) ∧ left ≤ right := by
  obtain ⟨band, _, hwid, _, _, hf⟩ := release_emits_changed F ops dock mods w buttons pos r t f hr hem
  refine ⟨freqValue F (clamp (w.horizontalScrollBar.value + band.geometry.left) 0
      w.spectrogram.width) w.spectrogram.width,
    freqValue F (clamp (w.horizontalScrollBar.value + band.geometry.right) 0
      w.spectrogram.width) w.spectrogram.width, ?_, ?_⟩
  · rw [hf, normalizedFreq_of_pos F _ _ _ hW, normalizedFreq_of_pos F _ _ _ hW]
  · apply freqValue_mono F _ _ _ _ hW
    apply clamp_mono
    simp only [QRect.width, QRect.left, QRect.right] at *
    omega

/-- Witness for C10: the release of a rubber band over (0, 0) to (20, 20) on
the example window emits `selectionChanged`, and its frequency range is
ordered. -/
theorem release_freq_ordered_witness :
    (0 : Int) < (bandedWindow 0 0 20 20 1024).spectrogram.width ∧
    ∃ left right,
      (normalizedFreq FloatModel.exact 0 0 1024, normalizedFreq FloatModel.exact 0 20 1024) =
        (some left, some right) ∧ left ≤ right :=
  ⟨by decide,
   release_freq_ordered FloatModel.exact exampleEngine exampleDock { control := false, shift := false }
    (bandedWindow 0 0 20 20 1024) 0 { x := 20, y := 20 }
    { window := { bandedWindow 0 0 20 20 1024 with
        selectionTime := (0, 20480),
        selectionFreq := (normalizedFreq FloatModel.exact 0 0 1024,
                          normalizedFreq FloatModel.exact 0 20 1024),
        statusMessage := true },
      consumed := true,
      emitted := [Signal.selectionChanged (0, 20480)
        (normalizedFreq FloatModel.exact 0 0 1024, normalizedFreq FloatModel.exact 0 20 1024)] }
    (0, 20480)
    (normalizedFreq FloatModel.exact 0 0 1024, normalizedFreq FloatModel.exact 0 20 1024)
    (by decide)
    (by simp [eventFilter, bandedWindow, exampleWindow, QRect.width, QRect.height, QRect.top,
          QRect.bottom, QRect.left, QRect.right, Spectrogram.lineToSample,
          Spectrogram.getStride])
    (by simp)⟩

/-- C5, as the code has it: when the display width is 0 the frequency mapping
is not guarded. The clamped column is 0 and is divided by 0, so for every
scroll offset and every column the mapped value is not finite; and a release
with a rubber band over the threshold stores and emits a frequency range whose
two values are not finite. -/
theorem release_zero_width_unguarded (F : FloatModel) (ops : SpectrogramOps) (dock : SpectrogramControlsOps)
    (mods : KeyboardModifiers)
    (w : MainWindow) (band : QRubberBand) (buttons : MouseButtons) (pos : QPoint)
    (hW : w.spectrogram.width = 0) (hband : w.rubberBand = some band)
    (hbig : band.geometry.width > 10 ∧ band.geometry.height > 10) :
    (∀ offset x : Int, normalizedFreq F offset x w.spectrogram.width = none) ∧
    ∃ r t, eventFilter F ops dock mods w (QEvent.MouseButtonRelease buttons pos) = some r ∧
      r.emitted = [Signal.selectionChanged t (none, none)] ∧
      r.window.selectionFreq = (none, none) := by
  constructor
  · intro offset x
    rw [hW]; exact normalizedFreq_zero_width F offset x
  · rw [eventFilter_release F ops dock mods w band buttons pos hband, if_pos hbig]
    simp only [hW, normalizedFreq_zero_width]
    exact ⟨_, _, rfl, rfl, rfl⟩

/-- Witness for C5: the example window with display width 0 and a rubber band
over (0, 0) to (20, 20). -/
theorem release_zero_width_unguarded_witness :
    ((bandedWindow 0 0 20 20 0).spectrogram.width = 0 ∧
     (bandedWindow 0 0 20 20 0).rubberBand =
        some { geometry := { x1 := 0, y1 := 0, x2 := 20, y2 := 20 }, visible := true } ∧
     ((QRect.mk 0 0 20 20).width > 10 ∧ (QRect.mk 0 0 20 20).height > 10)) ∧
    ((∀ offset x : Int, normalizedFreq FloatModel.exact offset x
        (bandedWindow 0 0 20 20 0).spectrogram.width = none) ∧
    ∃ r t, eventFilter FloatModel.exact exampleEngine exampleDock { control := false, shift := false }
        (bandedWindow 0 0 20 20 0) (QEvent.MouseButtonRelease 0 { x := 20, y := 20 }) = some r ∧
      r.emitted = [Signal.selectionChanged t (none, none)] ∧
      r.window.selectionFreq = (none, none)) :=
  ⟨⟨rfl, rfl, by decide⟩,
   release_zero_width_unguarded FloatModel.exact exampleEngine exampleDock { control := false, shift := false }
     (bandedWindow 0 0 20 20 0)
     { geometry := { x1 := 0, y1 := 0, x2 := 20, y2 := 20 }, visible := true }
     0 { x := 20, y := 20 } rfl rfl (by decide)⟩

/-- Counterexample to C5: with display width 0, offset 0 and column 0 the mapping
divides 0 by 0 and the result is not finite; it is neither skipped nor 0. -/
theorem zero_width_not_finite :
    normalizedFreq FloatModel.exact 0 0 0 = none := by
  simp [normalizedFreq, FloatModel.exact, Rounding.exact]

/-! ## The time range -/

/-- C4: whenever a release emits `selectionChanged` while the stride is at
least 1, the emitted time range is `lineToSample(scroll + rb.top())`,
`lineToSample(scroll + rb.bottom())` of the rubber band, and its start is at
most its end. -/
theorem release_time_ordered (F : FloatModel) (ops : SpectrogramOps) (dock : SpectrogramControlsOps)
    (mods : KeyboardModifiers) (w : MainWindow)
    (buttons : MouseButtons) (pos : QPoint) (r : Filtered)
    (t : Int × Int) (f : Option ℚ × Option ℚ)
    (hs : 1 ≤ w.spectrogram.getStride)
    (hr : eventFilter F ops dock mods w (QEvent.MouseButtonRelease buttons pos) = some r)
    (hem : Signal.selectionChanged t f ∈ r.emitted) :
    (∃ band, w.rubberBand = some band ∧
      t.1 = w.spectrogram.lineToSample (w.verticalScrollBar.value + band.geometry.top) ∧
      t.2 = w.spectrogram.lineToSample (w.verticalScrollBar.value + band.geometry.bottom)) ∧
    t.1 ≤ t.2 := by
  obtain ⟨band, hb, _, hh, ht, _⟩ := release_emits_changed F ops dock mods w buttons pos r t f hr hem
  subst ht
  refine ⟨⟨band, hb, rfl, rfl⟩, ?_⟩
  simp only [Spectrogram.lineToSample]
  apply mul_le_mul_of_nonneg_right _ (by omega)
  simp only [QRect.height, QRect.top, QRect.bottom] at *
  omega

/-- Witness for C4: the release of a rubber band over (0, 0) to (20, 20) on
the example window (stride 1024) emits the time range 0 to 20480. -/
theorem release_time_ordered_witness :
    1 ≤ (bandedWindow 0 0 20 20 1024).spectrogram.getStride ∧
    ((0 : Int), (20480 : Int)).1 ≤ ((0 : Int), (20480 : Int)).2 := by
  have h := release_time_ordered FloatModel.exact exampleEngine exampleDock { control := false, shift := false }
    (bandedWindow 0 0 20 20 1024) 0 { x := 20, y := 20 }
    { window := { bandedWindow 0 0 20 20 1024 with
        selectionTime := (0, 20480),
        selectionFreq := (normalizedFreq FloatModel.exact 0 0 1024,
                          normalizedFreq FloatModel.exact 0 20 1024),
        statusMessage := true },
      consumed := true,
      emitted := [Signal.selectionChanged (0, 20480)
        (normalizedFreq FloatModel.exact 0 0 1024, normalizedFreq FloatModel.exact 0 20 1024)] }
    (0, 20480)
    (normalizedFreq FloatModel.exact 0 0 1024, normalizedFreq FloatModel.exact 0 20 1024)
    (by decide)
    (by simp [eventFilter, bandedWindow, exampleWindow, QRect.width, QRect.height, QRect.top,
          QRect.bottom, QRect.left, QRect.right, Spectrogram.lineToSample,
          Spectrogram.getStride])
    (by simp)
  exact ⟨by decide, h.2⟩

/-! ## Lines, samples and the centre of the view -/

/-- C6: with a stride of at least 1, `sampleToLine(lineToSample(line))` is
`line` for every line index, and `getScrollPos(getCenterSample())` is the
value of the vertical scroll bar, for every viewport height and scroll value,
the stride being the same in both calls. -/
theorem line_sample_round_trip (w : MainWindow) (hs : 1 ≤ w.spectrogram.getStride) :
    (∀ line : Int, w.spectrogram.sampleToLine (w.spectrogram.lineToSample line) = line) ∧
    getScrollPos w (getCenterSample w) = w.verticalScrollBar.value := by
  have hne : w.spectrogram.getStride ≠ 0 := by omega
  constructor
  · intro line
    simp only [Spectrogram.sampleToLine, Spectrogram.lineToSample]
    exact Int.mul_ediv_cancel line hne
  · simp only [getScrollPos, getCenterSample]
    rw [Int.mul_tdiv_cancel _ hne]
    omega

/-- Witness for C6: the example window, stride 1024. -/
theorem line_sample_round_trip_witness :
    1 ≤ exampleWindow.spectrogram.getStride ∧
    ((∀ line : Int,
        exampleWindow.spectrogram.sampleToLine (exampleWindow.spectrogram.lineToSample line)
          = line) ∧
     getScrollPos exampleWindow (getCenterSample exampleWindow)
       = exampleWindow.verticalScrollBar.value) :=
  ⟨by decide, line_sample_round_trip exampleWindow (by decide)⟩

/-- C8: let the stride be at least 1 before and after the engine's setter, the
viewport height and the scroll value be non-negative, and the scroll position
computed for the old centre sample be within the range of the vertical scroll
bar. Then `setFFTSize` and `setZoomLevel` each set the scroll bar to
`c / s2 - h / 2`, and the centre sample `c'` afterwards satisfies
`c' ≤ c < c' + s2`, with `c' = c` when `s2` divides `c`; here `c` is the centre
sample before, `s2` the stride after, `h` the viewport height. -/
theorem resize_keeps_centre (ops : SpectrogramOps) (w : MainWindow) (size zoom : Int)
    (hs1 : 1 ≤ w.spectrogram.getStride) (hh : 0 ≤ w.scrollAreaHeight)
    (hv : 0 ≤ w.verticalScrollBar.value)
    (hsF : 1 ≤ (ops.setFFTSize size w.spectrogram).getStride)
    (hsZ : 1 ≤ (ops.setZoomLevel zoom w.spectrogram).getStride)
    (hfitF : w.verticalScrollBar.minimum ≤
        getScrollPos { w with spectrogram := ops.setFFTSize size w.spectrogram }
          (getCenterSample w) ∧
      getScrollPos { w with spectrogram := ops.setFFTSize size w.spectrogram }
          (getCenterSample w) ≤ w.verticalScrollBar.maximum)
    (hfitZ : w.verticalScrollBar.minimum ≤
        getScrollPos { w with spectrogram := ops.setZoomLevel zoom w.spectrogram }
          (getCenterSample w) ∧
      getScrollPos { w with spectrogram := ops.setZoomLevel zoom w.spectrogram }
          (getCenterSample w) ≤ w.verticalScrollBar.maximum) :
    ((setFFTSize ops size w).verticalScrollBar.value =
        (getCenterSample w).tdiv (ops.setFFTSize size w.spectrogram).getStride
          - w.scrollAreaHeight.tdiv 2 ∧
      CentreKept w (setFFTSize ops size w)) ∧
    ((setZoomLevel ops zoom w).verticalScrollBar.value =
        (getCenterSample w).tdiv (ops.setZoomLevel zoom w.spectrogram).getStride
          - w.scrollAreaHeight.tdiv 2 ∧
      CentreKept w (setZoomLevel ops zoom w)) :=
  ⟨centre_kept_of_stride w _ hh hv hs1 hsF hfitF.1 hfitF.2,
   centre_kept_of_stride w _ hh hv hs1 hsZ hfitZ.1 hfitZ.2⟩

/-- Witness for C8: the example window (centre sample 300 * 1024 = 307200)
with the example engine; FFT size 1000 gives stride 1000, scroll value 7 and
centre sample 307000; zoom level 3 gives stride 128, scroll value 2100 and
centre sample 307200. -/
theorem resize_keeps_centre_witness :
    (1 ≤ exampleWindow.spectrogram.getStride ∧
     1 ≤ (exampleEngine.setFFTSize 1000 exampleWindow.spectrogram).getStride ∧
     1 ≤ (exampleEngine.setZoomLevel 3 exampleWindow.spectrogram).getStride) ∧
    (((setFFTSize exampleEngine 1000 exampleWindow).verticalScrollBar.value =
        (getCenterSample exampleWindow).tdiv
            (exampleEngine.setFFTSize 1000 exampleWindow.spectrogram).getStride
          - exampleWindow.scrollAreaHeight.tdiv 2 ∧
      CentreKept exampleWindow (setFFTSize exampleEngine 1000 exampleWindow)) ∧
    ((setZoomLevel exampleEngine 3 exampleWindow).verticalScrollBar.value =
        (getCenterSample exampleWindow).tdiv
            (exampleEngine.setZoomLevel 3 exampleWindow.spectrogram).getStride
          - exampleWindow.scrollAreaHeight.tdiv 2 ∧
      CentreKept exampleWindow (setZoomLevel exampleEngine 3 exampleWindow))) :=
  ⟨⟨by decide, by decide, by decide⟩,
   resize_keeps_centre exampleEngine exampleWindow 1000 3 (by decide) (by decide) (by decide)
    (by decide) (by decide) (by decide) (by decide)⟩

/-! ## The sample rate -/

/-- C7, as the code has it: the controller does not test the sample rate.
`setSampleRate` passes `rate.toInt()` to the engine's `setSampleRate` for every
text (0 for the empty text, for "abc" and for "0", -5 for "-5"), and
`changeSampleRate` passes `rate` to the engine's `setSampleRate` and sets the
text field to `QString::number(rate)` for every `rate`, positive or not. -/
theorem sample_rate_forwarded (ops : SpectrogramOps) (w : MainWindow) :
    (∀ text : String, (setSampleRate ops text w).spectrogram =
        ops.setSampleRate (QString.toInt text) w.spectrogram) ∧
    (setSampleRate ops "" w).spectrogram = ops.setSampleRate 0 w.spectrogram ∧
    (setSampleRate ops "abc" w).spectrogram = ops.setSampleRate 0 w.spectrogram ∧
    (setSampleRate ops "0" w).spectrogram = ops.setSampleRate 0 w.spectrogram ∧
    (setSampleRate ops "-5" w).spectrogram = ops.setSampleRate (-5) w.spectrogram ∧
    (∀ rate : Int,
      (changeSampleRate ops rate w).spectrogram = ops.setSampleRate rate w.spectrogram ∧
      (changeSampleRate ops rate w).sampleRateText = QString.number rate) := by
  refine ⟨fun _ => rfl, ?_, ?_, ?_, ?_, fun _ => ⟨rfl, rfl⟩⟩
  · show ops.setSampleRate (QString.toInt "") _ = _
    rw [show QString.toInt "" = 0 by decide]
  · show ops.setSampleRate (QString.toInt "abc") _ = _
    rw [show QString.toInt "abc" = 0 by decide]
  · show ops.setSampleRate (QString.toInt "0") _ = _
    rw [show QString.toInt "0" = 0 by decide]
  · show ops.setSampleRate (QString.toInt "-5") _ = _
    rw [show QString.toInt "-5" = -5 by decide]

/-- Counterexample to C7, the text field: `changeSampleRate(-5)` on a window
whose sample-rate text is "8000000" leaves the text "-5". -/
theorem changeSampleRate_negative_sets_text :
    exampleWindow.sampleRateText = "8000000" ∧
    (changeSampleRate exampleEngine (-5) exampleWindow).sampleRateText = "-5" := by
  constructor
  · rfl
  · decide

/-! ## Wheel routing -/

theorem setZoomLevel_sliders (ops : SpectrogramOps) (zoom : Int) (w : MainWindow) :
    (setZoomLevel ops zoom w).zoomLevelSlider = w.zoomLevelSlider ∧
    (setZoomLevel ops zoom w).fftSizeSlider = w.fftSizeSlider := ⟨rfl, rfl⟩

theorem setFFTSize_sliders (ops : SpectrogramOps) (size : Int) (w : MainWindow) :
    (setFFTSize ops size w).zoomLevelSlider = w.zoomLevelSlider ∧
    (setFFTSize ops size w).fftSizeSlider = w.fftSizeSlider := ⟨rfl, rfl⟩

end Inspectrum
